import Mathlib

/-!
Shallow embedding of the role-based-agent-system repository (a Next.js
dashboard with API route handlers and React components), covering:

* the boss/supervisor state machine surface
  (`src/frontend/components/boss-state-manager.tsx`,
   `src/unnamed/part_009` = `app/api/system/boss-state/route.ts`);
* the task CRUD surface
  (`src/unnamed/part_010` = `app/api/tasks/route.ts`,
   `src/frontend/components/task-management.tsx`);
* the agent-hierarchy surface (`src/frontend/app/api/agents/route.ts`).

Conventions: JS timestamps (`Date.now()`, ISO strings) are modelled as
`Nat`; JS numbers holding counters are `Nat` where the source only ever
stores non-negative values and `Int` where a request body may supply a
negative value; `performance_score` floats are modelled as `ℚ`.
-/

/-! ## Boss state machine (boss-state-manager.tsx, part_009) -/

/-- The `BossState` enumeration.  The TypeScript enum declaration itself is
not part of the snapshot; its nine members are taken from the keys of
`STATE_DESCRIPTIONS` / `STATE_ACTIONS` in `boss-state-manager.tsx`, and its
string values are modelled as the lowercase member names (the dashboard
displays `state.toUpperCase()`). -/
inductive BossState
  | idle
  | awake
  | thinking
  | rethink
  | executing
  | researching
  | reflecting
  | restart
  | stop
deriving DecidableEq, Repr

/-- String value of a `BossState` member. -/
def bossStateString : BossState → String
  | .idle => "idle"
  | .awake => "awake"
  | .thinking => "thinking"
  | .rethink => "rethink"
  | .executing => "executing"
  | .researching => "researching"
  | .reflecting => "reflecting"
  | .restart => "restart"
  | .stop => "stop"

/-- `Object.values(BossState)` — the list of enum string values. -/
def bossStateValues : List String :=
  ["idle", "awake", "thinking", "rethink", "executing", "researching",
   "reflecting", "restart", "stop"]

/-- Partial inverse of `bossStateString`: which enum member a string
denotes, if any (used for the `STATE_ACTIONS[currentState as BossState]`
lookup, whose key is the string stored in `overview.boss_state`). -/
def bossStateOfString (s : String) : Option BossState :=
  if s = "idle" then some .idle
  else if s = "awake" then some .awake
  else if s = "thinking" then some .thinking
  else if s = "rethink" then some .rethink
  else if s = "executing" then some .executing
  else if s = "researching" then some .researching
  else if s = "reflecting" then some .reflecting
  else if s = "restart" then some .restart
  else if s = "stop" then some .stop
  else none

/-- The `STATE_ACTIONS` table of `boss-state-manager.tsx` (lines 38-48):
for each state, the list of states offered as action buttons. -/
def STATE_ACTIONS : BossState → List BossState
  | .idle => [.awake, .stop, .restart]
  | .awake => [.thinking, .executing, .researching, .idle, .stop]
  | .thinking => [.executing, .researching, .rethink, .reflecting, .idle]
  | .rethink => [.thinking, .executing, .reflecting, .idle]
  | .executing => [.thinking, .reflecting, .idle, .awake]
  | .researching => [.thinking, .executing, .reflecting, .idle]
  | .reflecting => [.thinking, .idle, .awake]
  | .restart => [.idle, .awake]
  | .stop => []

/-- `STATE_ACTIONS[currentState as BossState] || []`: the component keys the
table by the string held in `overview.boss_state`; an unknown string yields
the empty action list. -/
def stateActionsStr (s : String) : List BossState :=
  match bossStateOfString s with
  | some b => STATE_ACTIONS b
  | none => []

/-- The slice of `SystemOverview` the state-manager component reads and
writes: `boss_state` (a plain string in `lib/types.ts`), with `uptime`
standing in for the remaining fields that the functional update
`{ ...prev, boss_state: newState }` leaves untouched. -/
structure OverviewM where
  boss_state : String
  uptime : Nat
deriving DecidableEq, Repr

/-- One entry of the component's `stateHistory` list. -/
structure StateHistoryEntry where
  state : BossState
  timestamp : Nat
  duration : Nat
deriving DecidableEq, Repr

/-- The component state touched by `handleStateChange`. -/
structure ManagerState where
  overview : OverviewM
  history : List StateHistoryEntry
deriving DecidableEq, Repr

/-- `handleStateChange` (boss-state-manager.tsx lines 65-99): installs the
requested state via `setOverview(prev => ({ ...prev, boss_state: newState }))`
and appends a history entry — with no guard of any kind on the requested
state. -/
def handleStateChange (m : ManagerState) (newState : BossState) (now : Nat) :
    ManagerState :=
  { overview := { m.overview with boss_state := bossStateString newState },
    history := m.history ++ [{ state := newState, timestamp := now, duration := 0 }] }

/-- `POST /api/system/boss-state` (part_009 lines 40-64): the only
validation is `Object.values(BossState).includes(state)`; the current
supervisor state is not an input of the handler at all. -/
def postBossState (state : String) : Except String Unit :=
  if bossStateValues.contains state then Except.ok ()
  else Except.error "Invalid boss state"

/-- `mockSystemOverview` (lib/mock-data.ts lines 132-141), projected to the
fields of `OverviewM`: the component's initial overview has
`boss_state = 'ACTIVE'` and `metrics.uptime_seconds = 3600`. -/
def mockSystemOverviewM : OverviewM :=
  { boss_state := "ACTIVE", uptime := 3600 }

/-! ## Task records and UI task actions (task-management.tsx) -/

/-- The `TaskStatus` enumeration used by `task-management.tsx`. -/
inductive TaskStatus
  | pending
  | running
  | completed
  | failed
  | cancelled
deriving DecidableEq, Repr

/-- The slice of a task record that `handleTaskAction` and the per-task
action buttons of `task-management.tsx` read and write. -/
structure UiTask where
  id : String
  status : TaskStatus
  retry_count : Nat
  max_retries : Nat
deriving DecidableEq, Repr

/-- The `action === 'retry'` update applied to the matching task
(task-management.tsx line 77):
`{ ...task, status: TaskStatus.PENDING, retry_count: task.retry_count + 1 }`. -/
def retriedTask (t : UiTask) : UiTask :=
  { t with status := TaskStatus.pending, retry_count := t.retry_count + 1 }

/-- The `action === 'cancel'` update applied to the matching task
(task-management.tsx line 83): `{ ...task, status: TaskStatus.CANCELLED }`. -/
def cancelTask (t : UiTask) : UiTask :=
  { t with status := TaskStatus.cancelled }

/-- `handleTaskAction(taskId, 'retry')` (task-management.tsx lines 74-79):
maps over the task list, replacing every task whose id matches. -/
def handleTaskActionRetry (tasks : List UiTask) (taskId : String) : List UiTask :=
  tasks.map (fun t => if t.id = taskId then retriedTask t else t)

/-- `handleTaskAction(taskId, 'cancel')` (task-management.tsx lines 80-86). -/
def handleTaskActionCancel (tasks : List UiTask) (taskId : String) : List UiTask :=
  tasks.map (fun t => if t.id = taskId then cancelTask t else t)

/-- The render guard of the Retry button (task-management.tsx line 259):
`task.status === TaskStatus.FAILED && task.retry_count < task.max_retries`. -/
def retryOffered (t : UiTask) : Bool :=
  t.status == TaskStatus.failed && t.retry_count < t.max_retries

/-- The render guard of the Cancel button (task-management.tsx line 271):
`task.status === TaskStatus.PENDING || task.status === TaskStatus.RUNNING`. -/
def cancelOffered (t : UiTask) : Bool :=
  t.status == TaskStatus.pending || t.status == TaskStatus.running

/-! ## Task API routes (part_010 = app/api/tasks/route.ts) -/

/-- The fields of a `POST /api/tasks` request body that interact with the
handler's defaults, each `none` when the key is absent from the JSON body
(the object spread `...taskData` only overrides keys that are present). -/
structure TaskBody where
  id : Option String := none
  name : Option String := none
  priority : Option String := none
  status : Option String := none
  retry_count : Option Int := none
  max_retries : Option Int := none
  created_at : Option Nat := none
deriving DecidableEq, Repr

/-- The task record built by `POST /api/tasks`.  The five defaulted fields
are always present; `name` and `priority` are present only when the body
supplied them. -/
structure ApiTask where
  id : String
  created_at : Nat
  status : String
  retry_count : Int
  max_retries : Int
  name : Option String
  priority : Option String
deriving DecidableEq, Repr

/-- `newTask` in `POST /api/tasks` (part_010 lines 39-46): the defaults
`{ id: task-<Date.now()>, created_at: now, status: 'pending',
retry_count: 0, max_retries: 3 }` overridden by `...taskData`. -/
def createTask (body : TaskBody) (now : Nat) : ApiTask :=
  { id := body.id.getD ("task-" ++ toString now)
    created_at := body.created_at.getD now
    status := body.status.getD "pending"
    retry_count := body.retry_count.getD 0
    max_retries := body.max_retries.getD 3
    name := body.name
    priority := body.priority }

/-- `POST /api/tasks` (part_010 lines 31-56): every parsed body is answered
with status 201 and the built record; there is no validation branch. -/
def postTask (body : TaskBody) (now : Nat) : Except String ApiTask :=
  Except.ok (createTask body now)

/-- The slice of a stored task record that `GET /api/tasks` consults. -/
structure QTask where
  id : String
  priority : String
  status : String
  created_at : Nat
deriving DecidableEq, Repr

/-- `GET /api/tasks` (part_010 lines 4-29): optional exact-match status
filter, then `slice(0, limit)` — skipped when `limit` is falsy (0). -/
def getTasks (tasks : List QTask) (statusFilter : Option String) (limit : Nat) :
    List QTask :=
  let filtered :=
    match statusFilter with
    | some s => tasks.filter (fun t => t.status == s)
    | none => tasks
  if limit ≠ 0 then filtered.take limit else filtered

/-- Three PENDING tasks stored in submission order LOW, URGENT, MEDIUM
(the scenario of the spec's priority-ordering property). -/
def demoTasks : List QTask :=
  [{ id := "task-low", priority := "LOW", status := "pending", created_at := 0 },
   { id := "task-urgent", priority := "URGENT", status := "pending", created_at := 1 },
   { id := "task-medium", priority := "MEDIUM", status := "pending", created_at := 2 }]

/-! ## Agent hierarchy API (app/api/agents/route.ts) -/

/-- An agent record of `mockAgentHierarchy` (route.ts lines 50-107 and the
records built by the `create_agent` / `scale_agents` actions). -/
structure HAgent where
  agent_id : Nat
  display_name : String
  agent_name : String
  role : String
  status : String
  completed_tasks : Nat
  capabilities : List String
  performance_score : ℚ
  last_active : Nat
  current_task : Option String
deriving DecidableEq, Repr

/-- The `hierarchy_stats` record (route.ts lines 111-117, 220-226). -/
structure HStats where
  active_agents : Nat
  idle_agents : Nat
  busy_agents : Nat
  average_performance : ℚ
  total_completed_tasks : Nat
deriving DecidableEq, Repr

/-- The mutable `mockAgentHierarchy` object (route.ts lines 49-118). -/
structure AgentHierarchy where
  boss : HAgent
  subs : List HAgent
  total_agents : Nat
  next_agent_id : Nat
  stats : HStats
deriving DecidableEq, Repr

/-- The default capability list given to every newly created subordinate. -/
def defaultCapabilities : List String :=
  ["task_execution", "problem_solving", "data_processing"]

/-- The record pushed by the `create_agent` action (route.ts lines 149-160). -/
def newSubAgent (aid : Nat) (name : String) (now : Nat) : HAgent :=
  { agent_id := aid
    display_name := "Agent " ++ toString aid
    agent_name := name
    role := "subordinate"
    status := "idle"
    completed_tasks := 0
    capabilities := defaultCapabilities
    performance_score := (8 : ℚ) / 10
    last_active := now
    current_task := none }

/-- The record pushed by the scale-up loop (route.ts lines 188-199); it only
differs from `newSubAgent` in the generated `agent_name`. -/
def autoAgent (aid : Nat) (now : Nat) : HAgent :=
  newSubAgent aid ("Auto Agent " ++ toString aid) now

/-- The `create_agent` action of `POST /api/agents` (route.ts lines
140-172): rejects a falsy (empty) `agent_name`, otherwise pushes a new
subordinate, increments `total_agents`, `next_agent_id`, and
`hierarchy_stats.idle_agents`. -/
def createAgent (h : AgentHierarchy) (name : String) (now : Nat) :
    Except String AgentHierarchy :=
  if name = "" then Except.error "Agent name is required"
  else Except.ok
    { h with
      subs := h.subs ++ [newSubAgent h.next_agent_id name now]
      total_agents := h.total_agents + 1
      next_agent_id := h.next_agent_id + 1
      stats := { h.stats with idle_agents := h.stats.idle_agents + 1 } }

/-- The scale-up loop of `scale_agents` (route.ts lines 185-203): pushes
`toAdd` auto-named subordinates, bumping `next_agent_id` each time.
Returns the new subordinate list and `next_agent_id`. -/
def scaleAdd (subs : List HAgent) (nextId : Nat) (toAdd : Nat) (now : Nat) :
    List HAgent × Nat :=
  match toAdd with
  | 0 => (subs, nextId)
  | k + 1 => scaleAdd (subs ++ [autoAgent nextId now]) (nextId + 1) k now

/-- `findIndex(a => a.agent_id === aid)` followed by `splice(index, 1)`
(route.ts lines 210-213): removes the first record with the given id. -/
def removeFirstById (subs : List HAgent) (aid : Nat) : List HAgent :=
  match subs with
  | [] => []
  | a :: rest => if a.agent_id = aid then rest else a :: removeFirstById rest aid

/-- The scale-down loop of `scale_agents` (route.ts lines 206-214): for each
victim drawn from the idle snapshot, splice out the first record carrying
the victim's id. -/
def removeIdleLoop (subs : List HAgent) (victims : List HAgent) : List HAgent :=
  victims.foldl (fun acc v => removeFirstById acc v.agent_id) subs

/-- The subordinate-list part of `scale_agents` (route.ts lines 182-215):
add when `target_count` exceeds the current subordinate count, remove up to
`Math.min(toRemove, idleAgents.length)` idle agents (in list order) when it
is below, leave the list alone when equal. -/
def scaleSubs (subs : List HAgent) (nextId : Nat) (target : Int) (now : Nat) :
    List HAgent × Nat :=
  if (subs.length : Int) < target then
    scaleAdd subs nextId (target - (subs.length : Int)).toNat now
  else if target < (subs.length : Int) then
    let idle := subs.filter (fun a => a.status == "idle")
    let toRemove := ((subs.length : Int) - target).toNat
    (removeIdleLoop subs (idle.take (min toRemove idle.length)), nextId)
  else (subs, nextId)

/-- The `hierarchy_stats` recomputation of `scale_agents` (route.ts lines
220-226).  Note the hard-coded boss contributions: `+ 1` active agent, the
`1.0` seed of the performance sum, and the `15` seed of the completed-task
sum. -/
def recomputeStats (subs : List HAgent) (total : Nat) : HStats :=
  { active_agents := (subs.filter (fun a => a.status == "active")).length + 1
    idle_agents := (subs.filter (fun a => a.status == "idle")).length
    busy_agents := (subs.filter (fun a => a.status == "busy")).length
    average_performance :=
      (subs.foldl (fun s a => s + a.performance_score) 1) / (total : ℚ)
    total_completed_tasks := subs.foldl (fun s a => s + a.completed_tasks) 15 }

/-- The `scale_agents` action of `POST /api/agents` (route.ts lines
174-233): rescale the subordinate list, then set
`total_agents = subordinate_agents.length + 1` and recompute the stats.
The boss record is never touched. -/
def scaleAgents (h : AgentHierarchy) (target : Int) (now : Nat) : AgentHierarchy :=
  let p := scaleSubs h.subs h.next_agent_id target now
  { h with
    subs := p.1
    next_agent_id := p.2
    total_agents := p.1.length + 1
    stats := recomputeStats p.1 (p.1.length + 1) }

/-- The initial `mockAgentHierarchy` literal (route.ts lines 49-118),
module-load timestamps modelled as `1000000` (boss, busy agent) and
`700000` (`Date.now() - 300000`, idle agent). -/
def mockAgentHierarchy : AgentHierarchy :=
  { boss :=
    { agent_id := 0
      display_name := "Boss (Agent 0)"
      agent_name := "Boss Agent"
      role := "boss"
      status := "active"
      completed_tasks := 15
      capabilities :=
        ["strategic_decision_making", "task_delegation", "system_orchestration",
         "agent_management", "priority_assessment", "resource_allocation"]
      performance_score := 1
      last_active := 1000000
      current_task := some "Monitoring system operations" }
    subs :=
      [{ agent_id := 1
         display_name := "Agent 1"
         agent_name := "Trading Agent"
         role := "subordinate"
         status := "idle"
         completed_tasks := 8
         capabilities :=
           ["task_execution", "problem_solving", "data_processing",
            "market_analysis", "order_execution", "risk_management"]
         performance_score := (85 : ℚ) / 100
         last_active := 700000
         current_task := none },
       { agent_id := 2
         display_name := "Agent 2"
         agent_name := "Analysis Agent"
         role := "subordinate"
         status := "busy"
         completed_tasks := 12
         capabilities :=
           ["task_execution", "problem_solving", "data_processing",
            "data_analysis", "pattern_recognition", "reporting"]
         performance_score := (92 : ℚ) / 100
         last_active := 1000000
         current_task := some "Analyzing market trends" }]
    total_agents := 3
    next_agent_id := 3
    stats :=
      { active_agents := 2
        idle_agents := 1
        busy_agents := 1
        average_performance := (92 : ℚ) / 100
        total_completed_tasks := 35 } }

/-- Scenario state for the C6 analysis: two idle subordinates where the
FIRST in list order is the MORE recently active one. -/
def idleOne : HAgent :=
  { agent_id := 1
    display_name := "Agent 1"
    agent_name := "Idle One"
    role := "subordinate"
    status := "idle"
    completed_tasks := 0
    capabilities := defaultCapabilities
    performance_score := (8 : ℚ) / 10
    last_active := 100
    current_task := none }

/-- The second idle subordinate, least recently active (`last_active = 0`). -/
def idleTwo : HAgent :=
  { agent_id := 2
    display_name := "Agent 2"
    agent_name := "Idle Two"
    role := "subordinate"
    status := "idle"
    completed_tasks := 0
    capabilities := defaultCapabilities
    performance_score := (8 : ℚ) / 10
    last_active := 0
    current_task := none }

/-- A hierarchy with the boss and the two idle subordinates above. -/
def c6Hierarchy : AgentHierarchy :=
  { boss := mockAgentHierarchy.boss
    subs := [idleOne, idleTwo]
    total_agents := 3
    next_agent_id := 3
    stats := recomputeStats [idleOne, idleTwo] 3 }

/-- The scaling-scenario start state: 1 BOSS, 0 sub-agents. -/
def bossOnlyHierarchy : AgentHierarchy :=
  { boss := mockAgentHierarchy.boss
    subs := []
    total_agents := 1
    next_agent_id := 1
    stats :=
      { active_agents := 1
        idle_agents := 0
        busy_agents := 0
        average_performance := 1
        total_completed_tasks := 15 } }

/-- Request body with every optional field absent. -/
def emptyTaskBody : TaskBody := {}

/-- A malformed task specification in the sense of the spec: empty `name`
and `max_retries = -1`. -/
def malformedTaskBody : TaskBody :=
  { name := some "", max_retries := some (-1) }

/-- A body that overrides every server default. -/
def overridingTaskBody : TaskBody :=
  { id := some "custom-id", status := some "running",
    retry_count := some 7, max_retries := some 0, created_at := some 99 }

/-- Concrete task list for instantiating the retry theorem. -/
def c4Tasks : List UiTask :=
  [{ id := "task-a", status := TaskStatus.failed, retry_count := 1, max_retries := 3 },
   { id := "task-b", status := TaskStatus.pending, retry_count := 0, max_retries := 3 }]

/-- The failed, still-retryable task of `c4Tasks`. -/
def c4Task : UiTask :=
  { id := "task-a", status := TaskStatus.failed, retry_count := 1, max_retries := 3 }

/-- A COMPLETED task, for the cancel analysis. -/
def c5DoneTask : UiTask :=
  { id := "done-1", status := TaskStatus.completed, retry_count := 0, max_retries := 3 }

/-- A PENDING task, for instantiating the cancel-gate theorem. -/
def c5PendingTask : UiTask :=
  { id := "pend-1", status := TaskStatus.pending, retry_count := 0, max_retries := 3 }

/-- Scenario manager state whose current overview state is `stop`. -/
def c1StoppedManager : ManagerState :=
  { overview := { boss_state := "stop", uptime := 0 }, history := [] }

/-! ## Helper lemmas -/

/-- An element whose id differs from the spliced id survives
`removeFirstById`. -/
theorem mem_removeFirstById (a : HAgent) (l : List HAgent) (aid : Nat)
    (ha : a ∈ l) (hne : a.agent_id ≠ aid) : a ∈ removeFirstById l aid := by
  induction l with
  | nil => cases ha
  | cons b rest ih =>
    by_cases hb : b.agent_id = aid
    · have hr : removeFirstById (b :: rest) aid = rest := by
        simp [removeFirstById, hb]
      rw [hr]
      rcases List.mem_cons.mp ha with rfl | hrest
      · exact absurd hb hne
      · exact hrest
    · have hr : removeFirstById (b :: rest) aid = b :: removeFirstById rest aid := by
        simp [removeFirstById, hb]
      rw [hr]
      rcases List.mem_cons.mp ha with rfl | hrest
      · exact List.mem_cons_self _ _
      · exact List.mem_cons_of_mem _ (ih hrest)

/-- `removeFirstById` only removes, never reorders or edits. -/
theorem removeFirstById_sublist (l : List HAgent) (aid : Nat) :
    List.Sublist (removeFirstById l aid) l := by
  induction l with
  | nil => exact List.Sublist.refl _
  | cons b rest ih =>
    by_cases hb : b.agent_id = aid
    · have hr : removeFirstById (b :: rest) aid = rest := by
        simp [removeFirstById, hb]
      rw [hr]
      exact List.sublist_cons_self _ _
    · have hr : removeFirstById (b :: rest) aid = b :: removeFirstById rest aid := by
        simp [removeFirstById, hb]
      rw [hr]
      exact List.Sublist.cons₂ _ ih

/-- An element whose id matches no victim survives the scale-down loop. -/
theorem mem_removeIdleLoop (a : HAgent) (victims : List HAgent)
    (subs : List HAgent) (ha : a ∈ subs)
    (hids : ∀ v ∈ victims, a.agent_id ≠ v.agent_id) :
    a ∈ removeIdleLoop subs victims := by
  induction victims generalizing subs with
  | nil => exact ha
  | cons v rest ih =>
    have hstep : removeIdleLoop subs (v :: rest) =
        removeIdleLoop (removeFirstById subs v.agent_id) rest := rfl
    rw [hstep]
    exact ih (removeFirstById subs v.agent_id)
      (mem_removeFirstById a subs v.agent_id ha (hids v (List.mem_cons_self _ _)))
      (fun w hw => hids w (List.mem_cons_of_mem _ hw))

/-- The scale-down loop only removes elements. -/
theorem removeIdleLoop_sublist (victims subs : List HAgent) :
    List.Sublist (removeIdleLoop subs victims) subs := by
  induction victims generalizing subs with
  | nil => exact List.Sublist.refl _
  | cons v rest ih =>
    have hstep : removeIdleLoop subs (v :: rest) =
        removeIdleLoop (removeFirstById subs v.agent_id) rest := rfl
    rw [hstep]
    exact (ih _).trans (removeFirstById_sublist _ _)

/-- The scale-up loop keeps every existing subordinate. -/
theorem scaleAdd_mem (subs : List HAgent) (nid toAdd now : Nat) (a : HAgent)
    (ha : a ∈ subs) : a ∈ (scaleAdd subs nid toAdd now).1 := by
  induction toAdd generalizing subs nid with
  | zero => exact ha
  | succ k ih => exact ih _ _ (List.mem_append_left _ ha)

/-! ## C1 — external state forcing -/

/-- C1 counterexample: with the supervisor in STOP, the transition table
offers no successor at all, yet `handleStateChange` installs EXECUTING
anyway and the boss-state POST endpoint accepts the request — the
state-setting entry point installs states the transition table forbids. -/
theorem c1_counterexample :
    BossState.executing ∉ stateActionsStr "stop" ∧
    (handleStateChange c1StoppedManager BossState.executing 1).overview.boss_state
      = "executing" ∧
    postBossState "executing" = Except.ok () := by
  refine ⟨by decide, rfl, rfl⟩

/-- C1 (amended): the state-setting entry points are unguarded by the
transition table.  `handleStateChange` unconditionally installs whatever
state it is called with (leaving the other overview fields alone), and
`POST /api/system/boss-state` accepts exactly the members of the
`BossState` enumeration, regardless of — indeed without ever reading — the
current supervisor state; the `STATE_ACTIONS` table restricts only which
action buttons the UI offers. -/
theorem c1_state_set_unguarded :
    (∀ (m : ManagerState) (s : BossState) (now : Nat),
        (handleStateChange m s now).overview.boss_state = bossStateString s ∧
        (handleStateChange m s now).overview.uptime = m.overview.uptime) ∧
    (∀ str : String, postBossState str = Except.ok () ↔ str ∈ bossStateValues) ∧
    (∀ b : BossState, bossStateString b ∈ bossStateValues) := by
  refine ⟨fun m s now => ⟨rfl, rfl⟩, fun str => ?_, fun b => by cases b <;> decide⟩
  unfold postBossState
  by_cases hmem : str ∈ bossStateValues
  · have hc : bossStateValues.contains str = true := List.elem_iff.mpr hmem
    simp [hc, hmem]
  · have hc : bossStateValues.contains str = false := by
      by_contra hne
      exact hmem (List.elem_iff.mp (Bool.of_not_eq_false hne))
    simp [hc, hmem]

/-- C1 witness: the unguarded-installation theorem applied at a concrete
manager state and request. -/
theorem c1_state_set_unguarded_witness :
    (handleStateChange c1StoppedManager BossState.awake 2).overview.boss_state
      = bossStateString BossState.awake :=
  (c1_state_set_unguarded.1 c1StoppedManager BossState.awake 2).1

/-! ## C2 — STOP reachability in the transition table -/

/-- C2 counterexample: STOP is not an allowed successor of THINKING in
`STATE_ACTIONS`, so a shutdown request is not honoured from every
non-terminal state. -/
theorem c2_counterexample : BossState.stop ∉ STATE_ACTIONS BossState.thinking := by
  decide

/-- C2 (amended): in `STATE_ACTIONS`, STOP is an allowed successor exactly
of IDLE and AWAKE (not of every non-terminal state); no transition leaves
STOP; and the component's initial overview state is the string `ACTIVE`
from `mockSystemOverview` — not a `BossState` member at all, in particular
not IDLE. -/
theorem c2_stop_successors :
    (∀ s : BossState, BossState.stop ∈ STATE_ACTIONS s ↔
        (s = BossState.idle ∨ s = BossState.awake)) ∧
    STATE_ACTIONS BossState.stop = [] ∧
    mockSystemOverviewM.boss_state = "ACTIVE" ∧
    bossStateOfString "ACTIVE" = none := by
  refine ⟨fun s => by cases s <;> decide, rfl, rfl, by decide⟩

/-- C2 witness: the amended theorem applied at IDLE. -/
theorem c2_stop_successors_witness :
    BossState.stop ∈ STATE_ACTIONS BossState.idle ↔
      (BossState.idle = BossState.idle ∨ BossState.idle = BossState.awake) :=
  c2_stop_successors.1 BossState.idle

/-! ## C3 — task submission validation -/

/-- C3 counterexample: a specification with an empty name and
`max_retries = -1` is not rejected — `POST /api/tasks` answers 201 with a
task record carrying those very values, so no `ValidationError` path
exists. -/
theorem c3_counterexample :
    postTask malformedTaskBody 42 =
      Except.ok
        { id := "task-42", created_at := 42, status := "pending",
          retry_count := 0, max_retries := -1,
          name := some "", priority := none } := rfl

/-- C3 (amended): task submission performs no validation at all — every
parsed request body is accepted synchronously with a created record, the
defaults (fresh id `task-<now>`, `created_at = now`, status `pending`,
`retry_count = 0`, `max_retries = 3`) applying exactly to the fields the
body omits; malformed specifications (empty name, negative `max_retries`)
are accepted like any other. -/
theorem c3_submit_never_rejects (body : TaskBody) (now : Nat) :
    postTask body now = Except.ok (createTask body now) ∧
    (body.status = none → (createTask body now).status = "pending") ∧
    (body.retry_count = none → (createTask body now).retry_count = 0) ∧
    (body.max_retries = none → (createTask body now).max_retries = 3) ∧
    (body.id = none → (createTask body now).id = "task-" ++ toString now) ∧
    (body.created_at = none → (createTask body now).created_at = now) := by
  refine ⟨rfl, fun h => ?_, fun h => ?_, fun h => ?_, fun h => ?_, fun h => ?_⟩ <;>
    simp [createTask, h]

/-- C3 witness: the no-rejection theorem applied to the empty body. -/
theorem c3_submit_never_rejects_witness :
    emptyTaskBody.status = none ∧
    (createTask emptyTaskBody 11).status = "pending" :=
  ⟨rfl, (c3_submit_never_rejects emptyTaskBody 11).2.1 rfl⟩

/-! ## C10 — caller-supplied fields override defaults -/

/-- C10: in `POST /api/tasks`, the spread `...taskData` comes after the
defaults, so every field present in the body overrides the corresponding
default, while defaults apply exactly to the absent fields; the concrete
body overriding every default produces a task whose status is `running`
(not `pending`) with id, retry_count and max_retries all differing from
the defaults. -/
theorem c10_body_overrides_defaults (body : TaskBody) (now : Nat) :
    ((createTask body now).id = body.id.getD ("task-" ++ toString now) ∧
     (createTask body now).created_at = body.created_at.getD now ∧
     (createTask body now).status = body.status.getD "pending" ∧
     (createTask body now).retry_count = body.retry_count.getD 0 ∧
     (createTask body now).max_retries = body.max_retries.getD 3 ∧
     (createTask body now).name = body.name ∧
     (createTask body now).priority = body.priority) ∧
    createTask overridingTaskBody 5 =
      { id := "custom-id", created_at := 99, status := "running",
        retry_count := 7, max_retries := 0, name := none, priority := none } ∧
    (createTask overridingTaskBody 5).status ≠ "pending" := by
  exact ⟨⟨rfl, rfl, rfl, rfl, rfl, rfl, rfl⟩, rfl, by decide⟩

/-- C10 witness: the override laws applied to the overriding body. -/
theorem c10_body_overrides_defaults_witness :
    (createTask overridingTaskBody 5).status = overridingTaskBody.status.getD "pending" :=
  ((c10_body_overrides_defaults overridingTaskBody 5).1).2.2.1

/-! ## C4 — retry re-queues and frames -/

/-- C4: for a FAILED task with `retry_count < max_retries` (exactly the
condition under which the Retry button is rendered), the retry action sets
that task back to PENDING with `retry_count` incremented by exactly one,
leaves every other task (distinct id) in place unchanged, and introduces
nothing else; the retry action is not offered once `retry_count` has
reached `max_retries`, so a terminally FAILED task (FAILED, retry not
offered) with the `retry_count ≤ max_retries` invariant has
`retry_count = max_retries`. -/
theorem c4_retry_requeue (tasks : List UiTask) (t : UiTask)
    (hmem : t ∈ tasks)
    (hnodup : (tasks.map UiTask.id).Nodup)
    (hfail : t.status = TaskStatus.failed)
    (hlt : t.retry_count < t.max_retries) :
    retriedTask t ∈ handleTaskActionRetry tasks t.id ∧
    (retriedTask t).status = TaskStatus.pending ∧
    (retriedTask t).retry_count = t.retry_count + 1 ∧
    (retriedTask t).retry_count ≤ t.max_retries ∧
    (∀ u ∈ tasks, u.id ≠ t.id → u ∈ handleTaskActionRetry tasks t.id) ∧
    (∀ u ∈ handleTaskActionRetry tasks t.id,
        u = retriedTask t ∨ (u ∈ tasks ∧ u.id ≠ t.id)) ∧
    (∀ v : UiTask, v.max_retries ≤ v.retry_count → retryOffered v = false) ∧
    (∀ v : UiTask, v.status = TaskStatus.failed → retryOffered v = false →
        v.retry_count ≤ v.max_retries → v.retry_count = v.max_retries) := by
  refine ⟨?_, rfl, rfl, ?_, ?_, ?_, ?_, ?_⟩
  · exact List.mem_map.mpr ⟨t, hmem, by simp⟩
  · show t.retry_count + 1 ≤ t.max_retries
    omega
  · intro u hu hid
    exact List.mem_map.mpr ⟨u, hu, by simp [hid]⟩
  · intro u hu
    rcases List.mem_map.mp hu with ⟨w, hw, hwu⟩
    by_cases hwid : w.id = t.id
    · left
      have hwt : w = t := List.inj_on_of_nodup_map hnodup hw hmem hwid
      rw [← hwu]
      simp [hwt, hwid]
    · right
      rw [← hwu]
      simp [hwid]
      exact hw
  · intro v hv
    have h2 : ¬ (v.retry_count < v.max_retries) := by omega
    simp [retryOffered, h2]
  · intro v hst hoff hle
    by_contra hne
    have hlt2 : v.retry_count < v.max_retries := by omega
    have : retryOffered v = true := by simp [retryOffered, hst, hlt2]
    rw [this] at hoff
    cases hoff

/-- C4 witness: the retry theorem applied to a concrete two-task list. -/
theorem c4_retry_requeue_witness :
    c4Task ∈ c4Tasks ∧ (c4Tasks.map UiTask.id).Nodup ∧
    c4Task.status = TaskStatus.failed ∧
    c4Task.retry_count < c4Task.max_retries ∧
    retriedTask c4Task ∈ handleTaskActionRetry c4Tasks c4Task.id :=
  ⟨by decide, by decide, by decide, by decide,
   (c4_retry_requeue c4Tasks c4Task (by decide) (by decide) (by decide) (by decide)).1⟩

/-! ## C5 — cancellation reachability -/

/-- C5 counterexample: the Cancel button is indeed not offered for a
COMPLETED task, but the cancel action itself, applied to that task's id,
does set its status to CANCELLED — refuting "applying it never changes
that task's status to CANCELLED". -/
theorem c5_counterexample :
    cancelOffered c5DoneTask = false ∧
    handleTaskActionCancel [c5DoneTask] "done-1" =
      [{ id := "done-1", status := TaskStatus.cancelled,
         retry_count := 0, max_retries := 3 }] := by
  exact ⟨by decide, by decide⟩

/-- C5 (amended): the cancel operation is offered exactly for PENDING and
RUNNING tasks, so through the offered UI path CANCELLED is reachable only
from those states; but the underlying action, applied to any task id,
unconditionally sets the matching task's status to CANCELLED whatever its
current status, leaving only tasks with a different id unchanged. -/
theorem c5_cancel_gate (t : UiTask) (tasks : List UiTask) (tid : String) :
    (cancelOffered t = true ↔
        (t.status = TaskStatus.pending ∨ t.status = TaskStatus.running)) ∧
    (∀ u ∈ tasks, u.id = tid → cancelTask u ∈ handleTaskActionCancel tasks tid) ∧
    (∀ u : UiTask, (cancelTask u).status = TaskStatus.cancelled) ∧
    (∀ u ∈ tasks, u.id ≠ tid → u ∈ handleTaskActionCancel tasks tid) := by
  refine ⟨?_, ?_, fun u => rfl, ?_⟩
  · cases h : t.status <;> simp [cancelOffered, h]
  · intro u hu hid
    exact List.mem_map.mpr ⟨u, hu, by simp [hid]⟩
  · intro u hu hid
    exact List.mem_map.mpr ⟨u, hu, by simp [hid]⟩

/-- C5 witness: the cancel-gate theorem applied to a PENDING task. -/
theorem c5_cancel_gate_witness :
    cancelOffered c5PendingTask = true ↔
      (c5PendingTask.status = TaskStatus.pending ∨
        c5PendingTask.status = TaskStatus.running) :=
  (c5_cancel_gate c5PendingTask [c5PendingTask] "pend-1").1

/-! ## C6 — scale-down frame -/

/-- C6 counterexample: scaling `c6Hierarchy` (two idle subordinates) down
to one removes `idleOne` — the MORE recently active of the two idle agents
(`last_active = 100` versus `0`) — because the code removes idle agents in
list order, not preferring the least recently active as claimed. -/
theorem c6_counterexample :
    idleTwo.last_active < idleOne.last_active ∧
    idleOne.status = "idle" ∧ idleTwo.status = "idle" ∧
    (scaleAgents c6Hierarchy 1 2000).subs = [idleTwo] := by
  exact ⟨by decide, rfl, rfl, rfl⟩

/-- C6 (amended): for every hierarchy state with distinct agent ids and
every target count, `scale_agents` leaves the boss record untouched and
keeps every subordinate whose status is not `idle` with its record
unchanged; scaling down (target at most the current subordinate count)
only removes elements, in list order over the idle snapshot — not by
least-recent activity. -/
theorem c6_scale_frame (h : AgentHierarchy) (target : Int) (now : Nat)
    (hnodup : (h.subs.map HAgent.agent_id).Nodup) :
    (scaleAgents h target now).boss = h.boss ∧
    (∀ a ∈ h.subs, a.status ≠ "idle" → a ∈ (scaleAgents h target now).subs) ∧
    (target ≤ (h.subs.length : Int) →
        List.Sublist (scaleAgents h target now).subs h.subs) := by
  refine ⟨rfl, ?_, ?_⟩
  · intro a ha hstatus
    show a ∈ (scaleSubs h.subs h.next_agent_id target now).1
    unfold scaleSubs
    by_cases hup : (h.subs.length : Int) < target
    · rw [if_pos hup]
      exact scaleAdd_mem _ _ _ _ a ha
    · rw [if_neg hup]
      by_cases hdown : target < (h.subs.length : Int)
      · rw [if_pos hdown]
        apply mem_removeIdleLoop a _ _ ha
        intro v hv
        have hvf : v ∈ h.subs.filter (fun a => a.status == "idle") :=
          List.mem_of_mem_take hv
        have hvm := List.mem_filter.mp hvf
        have hvidle : v.status = "idle" := eq_of_beq hvm.2
        intro hid
        have hav : a = v := List.inj_on_of_nodup_map hnodup ha hvm.1 hid
        rw [hav] at hstatus
        exact hstatus hvidle
      · rw [if_neg hdown]
        exact ha
  · intro hle
    show List.Sublist (scaleSubs h.subs h.next_agent_id target now).1 h.subs
    unfold scaleSubs
    have hup : ¬ ((h.subs.length : Int) < target) := by omega
    rw [if_neg hup]
    by_cases hdown : target < (h.subs.length : Int)
    · rw [if_pos hdown]
      exact removeIdleLoop_sublist _ _
    · rw [if_neg hdown]

/-- C6 witness: the frame theorem applied to the mock hierarchy, whose one
busy subordinate survives a scale-down to one. -/
theorem c6_scale_frame_witness :
    (mockAgentHierarchy.subs.map HAgent.agent_id).Nodup ∧
    (scaleAgents mockAgentHierarchy 1 9).boss = mockAgentHierarchy.boss :=
  ⟨by decide, (c6_scale_frame mockAgentHierarchy 1 9 (by decide)).1⟩

/-! ## C7 — scaling scenario counts -/

/-- C7 counterexample: from 1 BOSS and 0 subordinates, `scale_agents` with
`target_count = 3` creates THREE new subordinate records, not two — the
target counts subordinates only, so the boss does not count toward it. -/
theorem c7_counterexample :
    bossOnlyHierarchy.subs.length = 0 ∧
    (scaleAgents bossOnlyHierarchy 3 5).subs.length = 3 ∧
    (scaleAgents bossOnlyHierarchy 3 5).subs.length ≠ 2 := by
  exact ⟨rfl, rfl, by decide⟩

/-- C7 (amended): scaling the boss-only registry to `target_count = 3`
creates exactly 3 new subordinate records (all role `subordinate`, status
`idle`, and carrying no parent reference — the record has no such field),
leaves the boss record unchanged, and sets `total_agents = 4`; a
subsequent `scale_agents` to target 0, all subordinates being idle,
removes them all, leaving only the boss with `total_agents = 1`. -/
theorem c7_scale_scenario :
    bossOnlyHierarchy.subs.length = 0 ∧
    (scaleAgents bossOnlyHierarchy 3 5).subs.length = 3 ∧
    (scaleAgents bossOnlyHierarchy 3 5).subs.map HAgent.role =
      ["subordinate", "subordinate", "subordinate"] ∧
    (scaleAgents bossOnlyHierarchy 3 5).subs.map HAgent.status =
      ["idle", "idle", "idle"] ∧
    (scaleAgents bossOnlyHierarchy 3 5).boss = bossOnlyHierarchy.boss ∧
    (scaleAgents bossOnlyHierarchy 3 5).total_agents = 4 ∧
    (scaleAgents (scaleAgents bossOnlyHierarchy 3 5) 0 6).subs = [] ∧
    (scaleAgents (scaleAgents bossOnlyHierarchy 3 5) 0 6).total_agents = 1 ∧
    (scaleAgents (scaleAgents bossOnlyHierarchy 3 5) 0 6).boss =
      bossOnlyHierarchy.boss := by
  exact ⟨rfl, rfl, rfl, rfl, rfl, rfl, rfl, rfl, rfl⟩

/-! ## C8 — retrieval ordering -/

/-- C8 counterexample: with PENDING tasks stored in submission order
[LOW, URGENT, MEDIUM], `GET /api/tasks` filtered to `pending` returns them
unchanged in stored order — the first returned task has priority LOW, not
URGENT, so retrieval is not priority-ordered. -/
theorem c8_counterexample :
    getTasks demoTasks (some "pending") 100 = demoTasks ∧
    (getTasks demoTasks (some "pending") 100).head? =
      some { id := "task-low", priority := "LOW", status := "pending",
             created_at := 0 } := by
  exact ⟨rfl, rfl⟩

/-- C8 (amended): task retrieval (`GET /api/tasks`) applies no priority
ordering at all — it returns the stored list filtered by exact status
match and truncated to the limit, preserving stored (submission) order:
the result is always a sublist of the store, every returned task matches
the requested status, and the [LOW, URGENT, MEDIUM] scenario comes back in
exactly that submission order. -/
theorem c8_get_tasks_order (tasks : List QTask) (s : String) (limit : Nat) :
    List.Sublist (getTasks tasks (some s) limit) tasks ∧
    (∀ t ∈ getTasks tasks (some s) limit, t.status = s) ∧
    getTasks demoTasks (some "pending") 100 = demoTasks := by
  refine ⟨?_, ?_, rfl⟩
  · unfold getTasks
    by_cases hl : limit ≠ 0
    · rw [if_pos hl]
      exact (List.take_sublist _ _).trans (List.filter_sublist _)
    · rw [if_neg hl]
      exact List.filter_sublist _
  · intro t ht
    unfold getTasks at ht
    have htf : t ∈ tasks.filter (fun u => u.status == s) := by
      by_cases hl : limit ≠ 0
      · rw [if_pos hl] at ht
        exact List.mem_of_mem_take ht
      · rw [if_neg hl] at ht
        exact ht
    exact eq_of_beq (List.mem_filter.mp htf).2

/-- C8 witness: the retrieval theorem applied to the demo store. -/
theorem c8_get_tasks_order_witness :
    List.Sublist (getTasks demoTasks (some "pending") 2) demoTasks :=
  (c8_get_tasks_order demoTasks "pending" 2).1

/-! ## C9 — hierarchy counter consistency -/

/-- C9: both hierarchy mutations keep the agent counter consistent with
the record set — `create_agent` pushes one subordinate while incrementing
`total_agents`, preserving `total_agents = subordinates + 1`, and
`scale_agents` re-establishes that equation outright; neither touches the
boss record, which in the initial `mockAgentHierarchy` carries
`agent_id = 0`. -/
theorem c9_total_consistent (h : AgentHierarchy) (name : String) (now : Nat)
    (target : Int)
    (hcons : h.total_agents = h.subs.length + 1)
    (hname : name ≠ "") :
    (∃ g, createAgent h name now = Except.ok g ∧
        g.total_agents = g.subs.length + 1 ∧ g.boss = h.boss) ∧
    (scaleAgents h target now).total_agents =
      (scaleAgents h target now).subs.length + 1 ∧
    (scaleAgents h target now).boss = h.boss ∧
    mockAgentHierarchy.boss.agent_id = 0 := by
  refine ⟨?_, rfl, rfl, rfl⟩
  unfold createAgent
  rw [if_neg hname]
  refine ⟨_, rfl, ?_, rfl⟩
  simp only [List.length_append, List.length_cons, List.length_nil]
  omega

/-- C9 witness: the counter-consistency theorem applied to the initial
mock hierarchy. -/
theorem c9_total_consistent_witness :
    mockAgentHierarchy.total_agents = mockAgentHierarchy.subs.length + 1 ∧
    ("New Agent" : String) ≠ "" ∧
    (scaleAgents mockAgentHierarchy 5 7).total_agents =
      (scaleAgents mockAgentHierarchy 5 7).subs.length + 1 :=
  ⟨by decide, by decide,
   (c9_total_consistent mockAgentHierarchy "New Agent" 7 5 (by decide) (by decide)).2.1⟩
